import Mathlib

/-!
# Hunyuan-Portal: verification of the Model Query Orchestration Layer

Shallow embedding of the core client module of the repository
(`src/hunyuan_app/core/client.py`), the Flask chat handler
(`src/hunyuan_app/web/app.py`), the Typer CLI commands
(`src/hunyuan_app/cli/main.py`) and the shell variant
(`hunyuan_shell.py`).

The external world (the `gradio_client` transport) is modelled by
oracles: the outcome of constructing a `GradioClient`, of a
`client.predict` call, and of a `client.view_api` call are inputs to the
embedded functions.  Python exceptions become `Except` values; `None`
becomes `Option.none`.
-/

/-- The ASCII whitespace characters removed by the Python method
`str.strip` (space, tab, LF, VT, FF, CR; the model restricts to ASCII). -/
def pyIsSpace (c : Char) : Bool :=
  c = ' ' || c = Char.ofNat 9 || c = Char.ofNat 10 || c = Char.ofNat 11
    || c = Char.ofNat 12 || c = Char.ofNat 13

/-- The Python method `str.strip`: drop leading and trailing whitespace. -/
def pyStrip (s : String) : String :=
  ⟨((s.data.dropWhile pyIsSpace).reverse.dropWhile pyIsSpace).reverse⟩

/-- The Python method `str.lower` on one ASCII character. -/
def pyLowerChar (c : Char) : Char :=
  if 65 ≤ c.toNat ∧ c.toNat ≤ 90 then Char.ofNat (c.toNat + 32) else c

/-- The Python method `str.lower` (the model restricts to ASCII). -/
def pyLower (s : String) : String :=
  ⟨s.data.map pyLowerChar⟩

namespace Core

/-- `DEFAULT_GRADIO_URL` from `core/client.py`. -/
def DEFAULT_GRADIO_URL : String := "tencent/Hunyuan-T1"

/-- `GRADIO_API_ENDPOINT` from `core/client.py`. -/
def GRADIO_API_ENDPOINT : String := "/chat"

/-- Outcome of a `client.predict(message, api_name=...)` call:
either a value (`Optional[str]` in Python, so `Option String` here),
or a raised `ConnectionError`, or any other raised `Exception`. -/
inductive PredictResult where
  | ok (response : Option String)
  | connectionError (e : String)
  | raised (e : String)
deriving DecidableEq, Repr

/-- Outcome of a `client.view_api()` call: success or a raised exception. -/
inductive ViewApiResult where
  | ok
  | raised (e : String)
deriving DecidableEq, Repr

/-- The `gradio_client.Client` object: it remembers the target it was
constructed from (`src`) and its behaviour for `predict` (keyed by the
message and the `api_name`) and `view_api`. -/
structure GradioClient where
  src : String
  predict : String → String → PredictResult
  viewApi : ViewApiResult

/-- Outcome of the `GradioClient(url)` constructor: a working client
(with its `predict` / `view_api` behaviour), a raised `ValueError`, or
any other raised exception. -/
inductive InitResult where
  | ok (predict : String → String → PredictResult) (viewApi : ViewApiResult)
  | valueError (e : String)
  | otherError (e : String)

/-- `ConnectionSetupError` from `core/client.py`: carries the formatted
message and, via `raise ... from e`, the underlying cause. -/
structure ConnectionSetupError where
  message : String
  cause : String
deriving DecidableEq, Repr

/-- An ASCII single-quote character, used in the formatted error
messages of `connect_client`. -/
def squote (s : String) : String :=
  String.singleton (Char.ofNat 39) ++ s ++ String.singleton (Char.ofNat 39)

/-- `connect_client(url)` from `core/client.py`: calls `GradioClient(url)`
(modelled by the oracle `init`); on success returns the client, on
`ValueError` or any other exception raises `ConnectionSetupError` with
the formatted message and the cause chained via `from e`. -/
def connect_client (init : String → InitResult) (url : String) :
    Except ConnectionSetupError GradioClient :=
  match init url with
  | .ok p v => .ok { src := url, predict := p, viewApi := v }
  | .valueError e =>
      .error { message := "Invalid URL or repo ID " ++ squote url ++ ": " ++ e,
               cause := e }
  | .otherError e =>
      .error { message := "Could not initialize client for " ++ squote url
                 ++ ". Reason: " ++ e,
               cause := e }

/-- The two failure kinds of the query path in `core/client.py`: the
re-raised built-in `ConnectionError` (the TransportError of the spec) and the
custom `PredictionError`. -/
inductive QueryError where
  | connectionError (msg : String)
  | predictionError (msg : String)
deriving DecidableEq, Repr

/-- `query_hunyuan_model(message, client, api_endpoint)` from
`core/client.py`: calls `client.predict(message, api_name=api_endpoint)`;
on success returns `str(response) if response is not None else ""`;
a raised `ConnectionError` is re-raised as `ConnectionError`, any other
exception is raised as `PredictionError`. -/
def query_hunyuan_model (message : String) (client : GradioClient)
    (api_endpoint : String := GRADIO_API_ENDPOINT) : Except QueryError String :=
  match client.predict message api_endpoint with
  | .ok response =>
      .ok (match response with
           | some s => s
           | none => "")
  | .connectionError e =>
      .error (.connectionError ("Gradio API call failed due to network issue: " ++ e))
  | .raised e =>
      .error (.predictionError ("Prediction failed: " ++ e))

/-- `ping_client(client)` from `core/client.py`: `client.view_api()` in a
`try`; `True` on success, `False` on any exception. -/
def ping_client (client : GradioClient) : Bool :=
  match client.viewApi with
  | .ok => true
  | .raised _ => false

end Core

namespace Shell

/-- A propagated Python exception in `hunyuan_shell.py` (the function
`query_hunyuan` there has no handler of its own). -/
inductive PyError where
  | connectionError (e : String)
  | other (e : String)
deriving DecidableEq, Repr

/-- `query_hunyuan(message, client)` from `hunyuan_shell.py`:
`return client.predict(message=message, api_name="/chat")` — the predict
result is returned unchanged (no normalization of `None`), and any
exception propagates. -/
def query_hunyuan (message : String) (client : Core.GradioClient) :
    Except PyError (Option String) :=
  match client.predict message "/chat" with
  | .ok r => .ok r
  | .connectionError e => .error (.connectionError e)
  | .raised e => .error (.other e)

end Shell

namespace Web

/-- One entry of the chat history held in the Flask session: a dict
with the keys `role` and `content`. -/
structure Msg where
  role : String
  content : String
deriving DecidableEq, Repr

/-- The Flask session state used by `handle_chat`: the keys
`chat_url` / `chat_history` / `user_unique_id`, each possibly absent
(`Option.none` models a key not in the session). -/
structure WebSession where
  chatUrl : Option String
  chatHistory : Option (List Msg)
  uniqueId : Option String
deriving DecidableEq, Repr

/-- The POST form fields read by `handle_chat`: `url` (strip applied in
the handler), `message`, and whether `clear_chat` is present. -/
structure ChatForm where
  url : String
  message : String
  clearChat : Bool
deriving DecidableEq, Repr

/-- A `flash(...)` call with its category. -/
inductive Flash where
  | warning (msg : String)
  | info (msg : String)
  | danger (msg : String)
deriving DecidableEq, Repr

/-- An outbound call into the core client module made while handling the
request (used to express that a path performs no connection attempt or
no dispatch). -/
inductive CoreCall where
  | connectCall (url : String)
  | predictCall (message endpoint : String)
deriving DecidableEq, Repr

/-- The `# --- Process New Message ---` block of `handle_chat`
(`web/app.py`), entered after session setup, reset handling and with the
stripped `url` and `message` in hand.  Appends the user message (rendered
by `mdUser`, the `markdown(..)` call of the web layer) to the history,
then connects via `connect_client(session[chat_url])` and queries via
`query_hunyuan_model`; on success appends the bot message rendered by
`mdBot`; on `ConnectionSetupError`, `ConnectionError` or
`PredictionError` flashes the error and leaves the history as it is at
that point (the user message stays appended).  Also covers the two
validation guards that precede the block. -/
def processMessage (init : String → Core.InitResult) (mdUser mdBot : String → String)
    (url message : String) (s : WebSession) :
    WebSession × List Flash × List CoreCall :=
  if url = "" then
    (s, [.warning "Gradio URL cannot be empty."], [])
  else if message = "" then
    (s, [.warning "Please enter a message."], [])
  else
    let userHtml := mdUser message
    let s5 : WebSession :=
      { s with chatHistory := some ((s.chatHistory.getD []) ++ [⟨"user", userHtml⟩]) }
    let target := s5.chatUrl.getD ""
    match Core.connect_client init target with
    | .error e =>
        (s5, [.danger ("Error: " ++ e.message)], [.connectCall target])
    | .ok client =>
        match Core.query_hunyuan_model message client Core.GRADIO_API_ENDPOINT with
        | .error (.connectionError m) =>
            (s5, [.danger ("Error: " ++ m)],
             [.connectCall target, .predictCall message Core.GRADIO_API_ENDPOINT])
        | .error (.predictionError m) =>
            (s5, [.danger ("Error: " ++ m)],
             [.connectCall target, .predictCall message Core.GRADIO_API_ENDPOINT])
        | .ok raw =>
            let botHtml := mdBot raw
            ({ s5 with
                chatHistory := some ((s5.chatHistory.getD []) ++ [⟨"bot", botHtml⟩]) },
             [],
             [.connectCall target, .predictCall message Core.GRADIO_API_ENDPOINT])

/-- `handle_chat` from `web/app.py` (the `/chat` POST route).  Strips the
form fields, fills in absent session keys (`freshId` models the freshly
generated `uuid4`), then: if the session URL differs from the submitted
URL or `clear_chat` is set, resets the history to `[]` and sets the
session URL to the submitted one; a `clear_chat` request flashes and
redirects immediately; otherwise the request continues with validation
and message processing (`processMessage`).  Every path ends in a
redirect to `index`, so the result is the new session state, the flashes
and the outbound core calls. -/
def handle_chat (init : String → Core.InitResult) (mdUser mdBot : String → String)
    (freshId : String) (form : ChatForm) (s0 : WebSession) :
    WebSession × List Flash × List CoreCall :=
  let url := pyStrip form.url
  let message := pyStrip form.message
  let clear_chat := form.clearChat
  let s1 := if s0.chatUrl = none then { s0 with chatUrl := some url } else s0
  let s2 := if s1.chatHistory = none then { s1 with chatHistory := some [] } else s1
  let s3 := if s2.uniqueId = none then { s2 with uniqueId := some freshId } else s2
  if s3.chatUrl ≠ some url ∨ clear_chat = true then
    let s4 : WebSession := { s3 with chatHistory := some [], chatUrl := some url }
    if clear_chat = true then
      (s4, [.info "Chat history cleared."], [])
    else
      processMessage init mdUser mdBot url message s4
  else
    processMessage init mdUser mdBot url message s3

end Web

namespace Cli

/-- One console input event of the interactive `chat` command: a typed
line, or an `EOFError` / `KeyboardInterrupt` at the prompt. -/
inductive CliEvent where
  | line (s : String)
  | interrupt
deriving DecidableEq, Repr

/-- One console/filesystem output of the CLI commands. -/
inductive CliOut where
  | connectError (msg : String)
  | respMarkdown (s : String)
  | respRaw (s : String)
  | queryError (msg : String)
  | exitMsg
  | savedTo (path : String)
  | writeError (msg : String)
deriving DecidableEq, Repr

/-- `str(e)` for the two query-path exceptions. -/
def errText : Core.QueryError → String
  | .connectionError m => m
  | .predictionError m => m

/-- The interaction loop of the `chat` command (`cli/main.py`), run over
a script of input events with an already-connected client.  An
interrupt at the prompt or an `exit`/`quit` line ends the session; an
empty line is skipped; otherwise the message is dispatched through
`query_hunyuan_model` (via `_query_with_progress`, which returns the
string unchanged): on success the response is printed as Markdown and
the loop continues, on `ConnectionError` or `PredictionError` the error
is printed and the loop continues. -/
def chat (client : Core.GradioClient) (api_endpoint : String) :
    List CliEvent → List CliOut
  | [] => []
  | .interrupt :: _ => [.exitMsg]
  | .line m :: rest =>
      let cleaned := pyStrip m
      if pyLower cleaned ∈ (["exit", "quit"] : List String) then
        [.exitMsg]
      else if cleaned = "" then
        chat client api_endpoint rest
      else
        match Core.query_hunyuan_model cleaned client api_endpoint with
        | .ok r => .respMarkdown r :: chat client api_endpoint rest
        | .error e => .queryError (errText e) :: chat client api_endpoint rest

/-- The `ask` command (`cli/main.py`): connect via `_initialize_client`
(a failed `connect_client` prints and exits with code 1), dispatch via
`query_hunyuan_model` (a `ConnectionError` or `PredictionError` prints
`Error during query` and exits with code 1), then either write the
response to `output_file` (modelled by the `write` oracle; an `IOError`
exits with code 1) or print it as Markdown or raw text.  Result: the
outputs and the process exit code. -/
def ask (init : String → Core.InitResult) (message url api_endpoint : String)
    (markdown_output : Bool) (output_file : Option String)
    (write : String → String → Except String Unit) : List CliOut × Nat :=
  match Core.connect_client init url with
  | .error e => ([.connectError e.message], 1)
  | .ok client =>
      match Core.query_hunyuan_model message client api_endpoint with
      | .error e => ([.queryError (errText e)], 1)
      | .ok response =>
          match output_file with
          | some path =>
              match write path response with
              | .ok _ => ([.savedTo path], 0)
              | .error e => ([.writeError e], 1)
          | none =>
              if markdown_output then ([.respMarkdown response], 0)
              else ([.respRaw response], 0)

end Cli

namespace Web

/-- The Exchange sequence encoded by a chat history: consecutive
messages are paired off into {query, response} pairs (the handler always
appends a user message and then its bot message). -/
def exchangesOf : List Msg → List (String × String)
  | mu :: mb :: rest => (mu.content, mb.content) :: exchangesOf rest
  | _ => []

/-- One `submit` against the web session: a `/chat` POST with the bound
URL, the query as message, no clear flag, and a world in which the
connection succeeds and the predict call returns `some r`. -/
def submitOnce (mdUser mdBot : String → String) (u q r : String) (s : WebSession) :
    WebSession :=
  (handle_chat (fun _ => .ok (fun _ _ => .ok (some r)) .ok) mdUser mdBot "fresh"
    { url := u, message := q, clearChat := false } s).1

/-- A sequence of `submit` calls, each with its own query and raw
response. -/
def runTurns (mdUser mdBot : String → String) (u : String) :
    List (String × String) → WebSession → WebSession
  | [], s => s
  | (q, r) :: rest, s => runTurns mdUser mdBot u rest (submitOnce mdUser mdBot u q r s)

/-- The history entries produced by a list of successful turns: for each
turn, the rendered user message followed by the rendered bot message. -/
def renderedTurns (mdUser mdBot : String → String) : List (String × String) → List Msg
  | [] => []
  | (q, r) :: rest =>
      ⟨"user", mdUser q⟩ :: ⟨"bot", mdBot r⟩ :: renderedTurns mdUser mdBot rest

end Web

/-- A client whose predict call succeeds but yields an absent value
(Python `None`). -/
def noneClient : Core.GradioClient :=
  { src := Core.DEFAULT_GRADIO_URL
    predict := fun _ _ => .ok none
    viewApi := .ok }

/-- Claim C9: `ping_client` is total over failures: it never propagates
an exception, returning `True` exactly when the trivial `view_api` call
succeeds and `False` when that call raises any exception. -/
theorem c9_ping_client_total (client : Core.GradioClient) :
    (Core.ping_client client = true ↔ client.viewApi = .ok)
    ∧ (Core.ping_client client = false ↔ ∃ e, client.viewApi = .raised e) := by
  rcases h : client.viewApi with _ | e
  · exact ⟨by simp [Core.ping_client, h], by simp [Core.ping_client, h]⟩
  · exact ⟨by simp [Core.ping_client, h], by simp [Core.ping_client, h]⟩

/-- Claim C4: every failure of `query_hunyuan_model` is surfaced as
exactly one of two mutually exclusive kinds: the re-raised built-in
`ConnectionError` (the TransportError of the spec) when `client.predict`
raised a `ConnectionError`, and `PredictionError` when it raised any
other exception; when `client.predict` returns, the call succeeds with
the normalized string.  No other failure kind escapes. -/
theorem c4_dispatch_failure_taxonomy (client : Core.GradioClient) (m ep : String) :
    (∃ r, client.predict m ep = .ok r ∧
        Core.query_hunyuan_model m client ep = .ok (r.getD ""))
    ∨ (∃ e, client.predict m ep = .connectionError e ∧
        Core.query_hunyuan_model m client ep =
          .error (.connectionError ("Gradio API call failed due to network issue: " ++ e)))
    ∨ (∃ e, client.predict m ep = .raised e ∧
        Core.query_hunyuan_model m client ep =
          .error (.predictionError ("Prediction failed: " ++ e))) := by
  rcases h : client.predict m ep with r | e | e
  · refine Or.inl ⟨r, rfl, ?_⟩
    unfold Core.query_hunyuan_model
    rw [h]; cases r <;> rfl
  · exact Or.inr (Or.inl ⟨e, rfl, by unfold Core.query_hunyuan_model; rw [h]⟩)
  · exact Or.inr (Or.inr ⟨e, rfl, by unfold Core.query_hunyuan_model; rw [h]⟩)

/-- Claim C3 (amended part): the core dispatcher `query_hunyuan_model`
returns a non-null string on success, normalizing an absent (`None`)
remote value to the empty string. -/
theorem c3_core_dispatch_never_null (client : Core.GradioClient) (m ep : String)
    (r : Option String) (h : client.predict m ep = .ok r) :
    Core.query_hunyuan_model m client ep = .ok (r.getD "")
    ∧ (r = none → Core.query_hunyuan_model m client ep = .ok "") := by
  constructor
  · unfold Core.query_hunyuan_model
    rw [h]; cases r <;> rfl
  · intro hn
    subst hn
    unfold Core.query_hunyuan_model
    rw [h]

/-- Witness for C3 (amended): at a concrete client whose predict call
yields `None`, the core dispatcher returns the empty string. -/
theorem c3_core_dispatch_never_null_witness :
    Core.query_hunyuan_model "hi" noneClient "/chat" = .ok ((none : Option String).getD "") :=
  (c3_core_dispatch_never_null noneClient "hi" "/chat" none rfl).1

/-- Claim C3 (counterexample): the shell variant `query_hunyuan` in
`hunyuan_shell.py` returns the remote value unchanged, so a successful
dispatch can return the absence marker `None` rather than the empty
string — refuting the claim for the dispatch at
`src/hunyuan_shell.py:70-72`. -/
theorem c3_shell_dispatch_returns_absence_cex :
    Shell.query_hunyuan "hi" noneClient = .ok none
    ∧ (none : Option String) ≠ some "" := by
  exact ⟨rfl, by decide⟩

/-- Claim C5: for every non-empty target, `connect_client` either
returns a handle bound to exactly that target (usable by dispatch), or
raises `ConnectionSetupError` carrying the target (as a substring of the
message) and the underlying cause (chained via `from e`); both
`ValueError` and any other constructor exception fold into
`ConnectionSetupError`, and the result is always one of these two
shapes — never a null or invalid handle. -/
theorem c5_connect_contract (init : String → Core.InitResult) (url : String)
    (_hne : url ≠ "") :
    (∀ p v, init url = .ok p v →
        Core.connect_client init url = .ok { src := url, predict := p, viewApi := v })
    ∧ (∀ c, init url = .valueError c →
        ∃ pre post, Core.connect_client init url =
          .error { message := pre ++ url ++ post, cause := c }
          ∧ post = String.singleton (Char.ofNat 39) ++ ": " ++ c)
    ∧ (∀ c, init url = .otherError c →
        ∃ pre post, Core.connect_client init url =
          .error { message := pre ++ url ++ post, cause := c }
          ∧ post = String.singleton (Char.ofNat 39) ++ ". Reason: " ++ c)
    ∧ ((∃ cl, Core.connect_client init url = .ok cl ∧ cl.src = url)
       ∨ (∃ e, Core.connect_client init url = .error e)) := by
  refine ⟨?_, ?_, ?_, ?_⟩
  · intro p v h
    unfold Core.connect_client
    rw [h]
  · intro c h
    refine ⟨"Invalid URL or repo ID " ++ String.singleton (Char.ofNat 39),
            String.singleton (Char.ofNat 39) ++ ": " ++ c, ?_, rfl⟩
    unfold Core.connect_client Core.squote
    rw [h]
    dsimp only
    simp only [String.append_assoc]
  · intro c h
    refine ⟨"Could not initialize client for " ++ String.singleton (Char.ofNat 39),
            String.singleton (Char.ofNat 39) ++ ". Reason: " ++ c, ?_, rfl⟩
    unfold Core.connect_client Core.squote
    rw [h]
    dsimp only
    simp only [String.append_assoc]
  · rcases h : init url with ⟨p, v⟩ | c | c
    · exact Or.inl ⟨{ src := url, predict := p, viewApi := v },
        by unfold Core.connect_client; rw [h], rfl⟩
    · exact Or.inr ⟨_, by unfold Core.connect_client; rw [h]⟩
    · exact Or.inr ⟨_, by unfold Core.connect_client; rw [h]⟩

/-- Witness for C5: at a concrete non-empty target whose constructor
succeeds, the connect call returns a handle bound to exactly that
target. -/
theorem c5_connect_contract_witness :
    ("tencent/Hunyuan-T1" : String) ≠ ""
    ∧ Core.connect_client (fun _ => .ok (fun _ _ => .ok none) .ok) "tencent/Hunyuan-T1"
        = .ok { src := "tencent/Hunyuan-T1", predict := fun _ _ => .ok none,
                viewApi := .ok } :=
  ⟨by decide,
   (c5_connect_contract (fun _ => .ok (fun _ _ => .ok none) .ok) "tencent/Hunyuan-T1"
      (by decide)).1 (fun _ _ => .ok none) .ok rfl⟩

/-- One successful `submit` on a Bound web session whose bound URL equals
the submitted URL: the handler appends the rendered user message and the
rendered bot message, and nothing else changes. -/
theorem submitOnce_bound (mdU mdB : String → String) (u q r i0 : String) (h : List Web.Msg)
    (hu : pyStrip u = u) (hq : pyStrip q = q) (hu0 : u ≠ "") (hq0 : q ≠ "") :
    Web.submitOnce mdU mdB u q r ⟨some u, some h, some i0⟩ =
      ⟨some u, some (h ++ [⟨"user", mdU q⟩, ⟨"bot", mdB r⟩]), some i0⟩ := by
  simp [Web.submitOnce, Web.handle_chat, Web.processMessage, Core.connect_client,
    Core.query_hunyuan_model, hu, hq, hu0, hq0]

/-- Running a list of successful turns on a Bound session appends the
rendered turns, in order, to the existing history; binding and id are
unchanged. -/
theorem runTurns_history (mdU mdB : String → String) (u i0 : String)
    (turns : List (String × String)) (h : List Web.Msg)
    (hu : pyStrip u = u) (hu0 : u ≠ "")
    (hq : ∀ p ∈ turns, pyStrip p.1 = p.1 ∧ p.1 ≠ "") :
    Web.runTurns mdU mdB u turns ⟨some u, some h, some i0⟩ =
      ⟨some u, some (h ++ Web.renderedTurns mdU mdB turns), some i0⟩ := by
  induction turns generalizing h with
  | nil => simp [Web.runTurns, Web.renderedTurns]
  | cons p rest ih =>
      obtain ⟨q, r⟩ := p
      have hp := hq (q, r) (by simp)
      rw [Web.runTurns,
        submitOnce_bound mdU mdB u q r i0 h hu hp.1 hu0 hp.2,
        ih _ (fun p hp2 => hq p (List.mem_cons_of_mem _ hp2))]
      simp [Web.renderedTurns]

/-- Pairing off the rendered history of a list of turns yields exactly the
rendered {query, response} pairs, in order. -/
theorem exchangesOf_renderedTurns (mdU mdB : String → String)
    (turns : List (String × String)) :
    Web.exchangesOf (Web.renderedTurns mdU mdB turns)
      = turns.map fun p => (mdU p.1, mdB p.2) := by
  induction turns with
  | nil => rfl
  | cons p rest ih =>
      obtain ⟨q, r⟩ := p
      simp [Web.renderedTurns, Web.exchangesOf, ih]

/-- Claim C6: after N successful `submit` calls in sequence on a Bound
session, the Exchange list has length N and the i-th Exchange pairs the
i-th submitted query with the response returned by that i-th call (each
rendered by the markdown conversion of the web layer), in call order; and a
single successful submit only appends to the existing history, never
reordering or rewriting it. -/
theorem c6_transcript_ordering (mdU mdB : String → String) (u i0 : String)
    (turns : List (String × String)) (h2 : List Web.Msg) (q2 r2 : String)
    (hu : pyStrip u = u) (hu0 : u ≠ "")
    (hq : ∀ p ∈ turns, pyStrip p.1 = p.1 ∧ p.1 ≠ "")
    (hq2 : pyStrip q2 = q2) (hq20 : q2 ≠ "") :
    (Web.runTurns mdU mdB u turns ⟨some u, some [], some i0⟩).chatHistory
        = some (Web.renderedTurns mdU mdB turns)
    ∧ Web.exchangesOf (Web.renderedTurns mdU mdB turns)
        = turns.map (fun p => (mdU p.1, mdB p.2))
    ∧ (Web.exchangesOf (Web.renderedTurns mdU mdB turns)).length = turns.length
    ∧ Web.submitOnce mdU mdB u q2 r2 ⟨some u, some h2, some i0⟩
        = ⟨some u, some (h2 ++ [⟨"user", mdU q2⟩, ⟨"bot", mdB r2⟩]), some i0⟩ := by
  refine ⟨?_, ?_, ?_, ?_⟩
  · rw [runTurns_history mdU mdB u i0 turns [] hu hu0 hq]
    simp
  · exact exchangesOf_renderedTurns mdU mdB turns
  · rw [exchangesOf_renderedTurns mdU mdB turns, List.length_map]
  · exact submitOnce_bound mdU mdB u q2 r2 i0 h2 hu hq2 hu0 hq20

/-- Witness for C6: the scenario from the spec — binding to `demo/model-a` and
submitting `hello` with response `hi there` yields the single Exchange
pairing them; a further submit on a two-message history appends. -/
theorem c6_transcript_ordering_witness :
    pyStrip "demo/model-a" = "demo/model-a"
    ∧ (Web.runTurns (fun s => s) (fun s => s) "demo/model-a" [("hello", "hi there")]
        ⟨some "demo/model-a", some [], some "id"⟩).chatHistory
      = some (Web.renderedTurns (fun s => s) (fun s => s) [("hello", "hi there")])
    ∧ Web.exchangesOf (Web.renderedTurns (fun s => s) (fun s => s) [("hello", "hi there")])
      = [("hello", "hi there")].map (fun p => (p.1, p.2)) := by
  have h := c6_transcript_ordering (fun s => s) (fun s => s) "demo/model-a" "id"
    [("hello", "hi there")] [] "again" "sure"
    (by decide) (by decide) (by decide) (by decide) (by decide)
  exact ⟨by decide, h.1, h.2.1⟩

/-- Claim C7: a `clear_chat` request on a Bound session (the submitted
URL being the bound URL of the session, as `clear` takes no target) empties
the Exchange sequence and changes nothing else: the session stays Bound
to the same target, and no connection or dispatch is attempted (so the
handle situation is untouched). -/
theorem c7_clear_preserves_binding (init : String → Core.InitResult)
    (mdU mdB : String → String) (fresh u m i0 : String) (h : List Web.Msg)
    (hu : pyStrip u = u) :
    Web.handle_chat init mdU mdB fresh ⟨u, m, true⟩ ⟨some u, some h, some i0⟩
      = (⟨some u, some [], some i0⟩, [.info "Chat history cleared."], []) := by
  simp [Web.handle_chat, hu]

/-- Witness for C7: the scenario from the spec — `clear` on a session with 3
Exchanges yields a session bound to the same target with 0 Exchanges. -/
theorem c7_clear_preserves_binding_witness :
    pyStrip "demo/model-a" = "demo/model-a"
    ∧ Web.handle_chat (fun _ => .otherError "down") (fun s => s) (fun s => s) "f"
        ⟨"demo/model-a", "", true⟩
        ⟨some "demo/model-a",
         some [⟨"user", "a"⟩, ⟨"bot", "b"⟩, ⟨"user", "c"⟩, ⟨"bot", "d"⟩,
               ⟨"user", "e"⟩, ⟨"bot", "f"⟩],
         some "id"⟩
      = (⟨some "demo/model-a", some [], some "id"⟩,
         [.info "Chat history cleared."], []) :=
  ⟨by decide,
   c7_clear_preserves_binding (fun _ => .otherError "down") (fun s => s) (fun s => s)
     "f" "demo/model-a" "" "id" _ (by decide)⟩

/-- The message-processing block never touches the bound URL or the
unique id: only the history can change. -/
theorem processMessage_frame (init : String → Core.InitResult)
    (mdU mdB : String → String) (url msg : String) (s : Web.WebSession) :
    (Web.processMessage init mdU mdB url msg s).1.chatUrl = s.chatUrl
    ∧ (Web.processMessage init mdU mdB url msg s).1.uniqueId = s.uniqueId := by
  unfold Web.processMessage
  dsimp only
  split
  · exact ⟨rfl, rfl⟩
  · split
    · exact ⟨rfl, rfl⟩
    · split
      · exact ⟨rfl, rfl⟩
      · split <;> exact ⟨rfl, rfl⟩

/-- On a Bound session, a request whose (stripped) URL differs from the
bound URL and does not set `clear_chat` reduces `handle_chat` to the
message-processing block run on the already-cleared, already-rebound
session. -/
theorem handle_chat_url_change (init : String → Core.InitResult)
    (mdU mdB : String → String) (fresh t1 i0 : String) (form : Web.ChatForm)
    (h : List Web.Msg)
    (hclear : form.clearChat = false) (hne : pyStrip form.url ≠ t1) :
    Web.handle_chat init mdU mdB fresh form ⟨some t1, some h, some i0⟩
      = Web.processMessage init mdU mdB (pyStrip form.url) (pyStrip form.message)
          ⟨some (pyStrip form.url), some [], some i0⟩ := by
  have hne2 : t1 ≠ pyStrip form.url := Ne.symm hne
  simp [Web.handle_chat, hclear, hne2]

/-- Claim C10: whenever the submitted URL differs from the bound URL of
the session, the history is cleared and the session rebound to the new URL
before message validation and before any connection attempt: the outcome
is independent of the prior history, the session ends bound to the new
URL, and a request with a changed URL and an empty message still clears
and rebinds while performing no core call at all. -/
theorem c10_url_change_clears_before_validation (init : String → Core.InitResult)
    (mdU mdB : String → String) (fresh t1 i0 : String) (form : Web.ChatForm)
    (h : List Web.Msg)
    (hclear : form.clearChat = false) (hne : pyStrip form.url ≠ t1) :
    Web.handle_chat init mdU mdB fresh form ⟨some t1, some h, some i0⟩
      = Web.handle_chat init mdU mdB fresh form ⟨some t1, some [], some i0⟩
    ∧ (Web.handle_chat init mdU mdB fresh form ⟨some t1, some h, some i0⟩).1.chatUrl
        = some (pyStrip form.url)
    ∧ (pyStrip form.message = "" → pyStrip form.url ≠ "" →
        Web.handle_chat init mdU mdB fresh form ⟨some t1, some h, some i0⟩
          = (⟨some (pyStrip form.url), some [], some i0⟩,
             [.warning "Please enter a message."], [])) := by
  refine ⟨?_, ?_, ?_⟩
  · rw [handle_chat_url_change init mdU mdB fresh t1 i0 form h hclear hne,
      handle_chat_url_change init mdU mdB fresh t1 i0 form [] hclear hne]
  · rw [handle_chat_url_change init mdU mdB fresh t1 i0 form h hclear hne]
    exact (processMessage_frame init mdU mdB (pyStrip form.url) (pyStrip form.message)
      ⟨some (pyStrip form.url), some [], some i0⟩).1
  · intro hm hu
    rw [handle_chat_url_change init mdU mdB fresh t1 i0 form h hclear hne]
    simp [Web.processMessage, hm, hu]

/-- Witness for C10: a request changing the URL from `a` to `b` with an
empty message clears the transcript and rebinds to `b`, with no core
call. -/
theorem c10_url_change_clears_before_validation_witness :
    pyStrip "b" ≠ "a"
    ∧ Web.handle_chat (fun _ => .otherError "down") (fun s => s) (fun s => s) "f"
        ⟨"b", "", false⟩ ⟨some "a", some [⟨"user", "x"⟩, ⟨"bot", "y"⟩], some "id"⟩
      = (⟨some (pyStrip "b"), some [], some "id"⟩,
         [.warning "Please enter a message."], []) :=
  ⟨by decide,
   (c10_url_change_clears_before_validation (fun _ => .otherError "down")
      (fun s => s) (fun s => s) "f" "a" "id" ⟨"b", "", false⟩
      [⟨"user", "x"⟩, ⟨"bot", "y"⟩] rfl (by decide)).2.2 (by decide) (by decide)⟩

/-- Claim C1 (counterexample): the claim as stated is false — when
dispatch fails, the Exchange sequence is NOT byte-for-byte identical:
`handle_chat` appends the user message to the history before dispatching
and keeps it there when the query raises, so the failed turn IS
partially recorded.  Concretely: an empty transcript gains the user
entry `hi` although the predict call raised a `ConnectionError`. -/
theorem c1_failed_dispatch_keeps_user_message_cex :
    (Web.handle_chat (fun _ => .ok (fun _ _ => .connectionError "boom") .ok)
        (fun s => s) (fun s => s) "f"
        ⟨"tencent/Hunyuan-T1", "hi", false⟩
        ⟨some "tencent/Hunyuan-T1", some [], some "id"⟩).1.chatHistory
      = some [⟨"user", "hi"⟩]
    ∧ some [(⟨"user", "hi"⟩ : Web.Msg)] ≠ some ([] : List Web.Msg) := by
  exact ⟨by decide, by decide⟩

/-- Claim C1 (amended): if dispatch fails with a `ConnectionError` or a
`PredictionError`, the session keeps its binding and the bot half of the
turn is never recorded — but the user message, appended before the
dispatch, remains: the Exchange sequence after the failed call is the
prior sequence with exactly the user entry appended. -/
theorem c1_failed_dispatch_appends_only_user_message
    (init : String → Core.InitResult) (mdU mdB : String → String)
    (fresh u m i0 : String) (h : List Web.Msg)
    (pf : String → String → Core.PredictResult) (va : Core.ViewApiResult)
    (hu : pyStrip u = u) (hm : pyStrip m = m) (hu0 : u ≠ "") (hm0 : m ≠ "")
    (hinit : init u = .ok pf va)
    (hfail : ∀ r, pf m Core.GRADIO_API_ENDPOINT ≠ .ok r) :
    (Web.handle_chat init mdU mdB fresh ⟨u, m, false⟩ ⟨some u, some h, some i0⟩).1
      = ⟨some u, some (h ++ [⟨"user", mdU m⟩]), some i0⟩ := by
  rcases hp : pf m Core.GRADIO_API_ENDPOINT with r | e | e
  · exact absurd hp (hfail r)
  · simp [Web.handle_chat, Web.processMessage, Core.connect_client,
      Core.query_hunyuan_model, hu, hm, hu0, hm0, hinit, hp]
  · simp [Web.handle_chat, Web.processMessage, Core.connect_client,
      Core.query_hunyuan_model, hu, hm, hu0, hm0, hinit, hp]

/-- Witness for C1 (amended): a concrete failed dispatch appends exactly
the user entry. -/
theorem c1_failed_dispatch_appends_only_user_message_witness :
    pyStrip "u" = "u"
    ∧ (Web.handle_chat (fun _ => .ok (fun _ _ => .raised "oops") .ok)
        (fun s => s) (fun s => s) "f" ⟨"u", "hi", false⟩
        ⟨some "u", some [⟨"user", "old"⟩, ⟨"bot", "older"⟩], some "id"⟩).1
      = ⟨some "u", some ([⟨"user", "old"⟩, ⟨"bot", "older"⟩] ++ [⟨"user", "hi"⟩]),
         some "id"⟩ :=
  ⟨by decide,
   c1_failed_dispatch_appends_only_user_message
     (fun _ => .ok (fun _ _ => .raised "oops") .ok) (fun s => s) (fun s => s)
     "f" "u" "hi" "id" [⟨"user", "old"⟩, ⟨"bot", "older"⟩]
     (fun _ _ => .raised "oops") .ok
     (by decide) (by decide) (by decide) (by decide) rfl
     (fun r hr => Core.PredictResult.noConfusion hr)⟩

/-- Claim C2 (counterexample): the claim as stated is false — rebinding
is not all-or-nothing.  A session bound to `a` with a transcript,
receiving a request for target `b` whose connection fails, does NOT
remain bound to `a` with its prior transcript: it ends bound to `b`
with the prior transcript discarded (only the new user message is in the
history). -/
theorem c2_rebind_not_all_or_nothing_cex :
    (Web.handle_chat (fun _ => .valueError "bad") (fun s => s) (fun s => s) "f"
        ⟨"b", "hi", false⟩
        ⟨some "a", some [⟨"user", "x"⟩, ⟨"bot", "y"⟩], some "id"⟩).1
      = ⟨some "b", some [⟨"user", "hi"⟩], some "id"⟩
    ∧ (some "b" : Option String) ≠ some "a"
    ∧ (some [(⟨"user", "hi"⟩ : Web.Msg)] : Option (List Web.Msg))
        ≠ some [⟨"user", "x"⟩, ⟨"bot", "y"⟩] := by
  exact ⟨by decide, by decide, by decide⟩

/-- Claim C2 (amended): `bind(T2)` commits before connecting: the
transcript is cleared and the session rebound to T2 unconditionally; if
`connect(T2)` then fails, the session stays bound to T2 with the cleared
transcript (holding only the just-appended user message) — it never
reverts to T1 or its prior transcript. -/
theorem c2_rebind_commits_before_connect
    (init : String → Core.InitResult) (mdU mdB : String → String)
    (fresh t1 t2 m i0 : String) (h : List Web.Msg)
    (ht2 : pyStrip t2 = t2) (hm : pyStrip m = m) (ht20 : t2 ≠ "") (hm0 : m ≠ "")
    (hne : t2 ≠ t1)
    (hfail : ∀ p v, init t2 ≠ .ok p v) :
    (Web.handle_chat init mdU mdB fresh ⟨t2, m, false⟩ ⟨some t1, some h, some i0⟩).1
      = ⟨some t2, some [⟨"user", mdU m⟩], some i0⟩ := by
  have hne2 : t1 ≠ t2 := Ne.symm hne
  rcases hi : init t2 with ⟨p, v⟩ | e | e
  · exact absurd hi (hfail p v)
  · simp [Web.handle_chat, Web.processMessage, Core.connect_client,
      ht2, hm, ht20, hm0, hne2, hi]
  · simp [Web.handle_chat, Web.processMessage, Core.connect_client,
      ht2, hm, ht20, hm0, hne2, hi]

/-- Witness for C2 (amended): a concrete failed rebind leaves the session
on the new target with only the new user message. -/
theorem c2_rebind_commits_before_connect_witness :
    ("b" : String) ≠ "a"
    ∧ (Web.handle_chat (fun _ => .valueError "bad") (fun s => s) (fun s => s) "f"
        ⟨"b", "hi", false⟩
        ⟨some "a", some [⟨"user", "x"⟩, ⟨"bot", "y"⟩], some "id"⟩).1
      = ⟨some "b", some [⟨"user", "hi"⟩], some "id"⟩ :=
  ⟨by decide,
   c2_rebind_commits_before_connect (fun _ => .valueError "bad")
     (fun s => s) (fun s => s) "f" "a" "b" "hi" "id"
     [⟨"user", "x"⟩, ⟨"bot", "y"⟩]
     (by decide) (by decide) (by decide) (by decide) (by decide)
     (fun p v hpv => Core.InitResult.noConfusion hpv)⟩

/-- A client whose predict call always raises a `ConnectionError`. -/
def boomClient : Core.GradioClient :=
  { src := "u"
    predict := fun _ _ => .connectionError "boom"
    viewApi := .ok }

/-- Claim C8: a failure raised during a query is reported and the
interactive chat loop continues accepting new input (the remaining
events are still processed), while the one-shot `ask` invocation reports
the error and terminates with the non-zero exit code 1. -/
theorem c8_error_reporting_chat_vs_ask
    (client : Core.GradioClient) (ep m : String) (rest : List Cli.CliEvent)
    (e : Core.QueryError)
    (hm0 : pyStrip m ≠ "")
    (hexit : pyLower (pyStrip m) ∉ (["exit", "quit"] : List String))
    (hfail : Core.query_hunyuan_model (pyStrip m) client ep = .error e)
    (init2 : String → Core.InitResult) (url2 msg2 ep2 : String)
    (p2 : String → String → Core.PredictResult) (v2 : Core.ViewApiResult)
    (mo : Bool) (ofile : Option String)
    (write : String → String → Except String Unit)
    (e2 : Core.QueryError)
    (hinit2 : init2 url2 = .ok p2 v2)
    (hfail2 : Core.query_hunyuan_model msg2 ⟨url2, p2, v2⟩ ep2 = .error e2) :
    Cli.chat client ep (.line m :: rest)
      = .queryError (Cli.errText e) :: Cli.chat client ep rest
    ∧ Cli.ask init2 msg2 url2 ep2 mo ofile write
        = ([.queryError (Cli.errText e2)], 1)
    ∧ (1 : Nat) ≠ 0 := by
  refine ⟨?_, ?_, by decide⟩
  · simp [Cli.chat, hm0, hexit, hfail]
  · simp [Cli.ask, Core.connect_client, hinit2, hfail2]

/-- Witness for C8: with a concrete client whose predict call raises a
`ConnectionError`, the chat loop reports the error and goes on to
process the next input event, and `ask` exits with code 1. -/
theorem c8_error_reporting_chat_vs_ask_witness :
    pyStrip "hello" ≠ ""
    ∧ Cli.chat boomClient "/chat" [.line "hello", .line "exit"]
        = .queryError (Cli.errText
            (.connectionError ("Gradio API call failed due to network issue: " ++ "boom")))
          :: Cli.chat boomClient "/chat" [.line "exit"]
    ∧ Cli.ask (fun _ => .ok (fun _ _ => .connectionError "boom") .ok)
        "hi" "u" "/chat" true none (fun _ _ => .ok ())
      = ([.queryError (Cli.errText
            (.connectionError ("Gradio API call failed due to network issue: " ++ "boom")))], 1) := by
  have h := c8_error_reporting_chat_vs_ask boomClient "/chat" "hello" [.line "exit"]
    (.connectionError ("Gradio API call failed due to network issue: " ++ "boom"))
    (by decide) (by decide) rfl
    (fun _ => .ok (fun _ _ => .connectionError "boom") .ok) "u" "hi" "/chat"
    (fun _ _ => .connectionError "boom") .ok true none (fun _ _ => .ok ())
    (.connectionError ("Gradio API call failed due to network issue: " ++ "boom"))
    rfl rfl
  exact ⟨by decide, h.1, h.2.1⟩
